import Mathlib

/-!
Verification of the orchestration layer of `colorconverter.py`.

The program is a command-line color converter: it parses arguments, decides
which of eight mutually exclusive input color models was supplied, validates
the supplied values against per-bit-depth ranges, fans the input out over
observers, illuminants and chromatic adaptation transforms (calling an
external colorimetry library for the mathematics), assembles a nested
result dictionary, and prints it as one JSON document.

Embedding conventions:
* Python floats are modeled by `ℚ`; here they only participate in
  comparisons, multiplication, division and decimal rounding, all of which
  are exact on the inputs at issue.
* Functions that can `raise` are modeled with `Except String`, the error
  payload being the exception class or message.
* The external library's data sets (`CCS_ILLUMINANTS`, `SDS_ILLUMINANTS`)
  are abstracted as boolean membership predicates passed as parameters;
  nothing is assumed about them.
* Python dictionaries are modeled as insertion-ordered association lists;
  assignment replaces an existing binding in place or appends a new one,
  exactly like CPython dicts.
-/

namespace ColorConverter

/-- Lookup in an association list with `String` keys, mirroring Python
`d[k]` / `k in d` on a dict literal. -/
def dictLookup (d : List (String × ℚ)) (k : String) : Option ℚ :=
  (d.find? (fun p => p.1 == k)).map (fun p => p.2)

/-- `BITDEPTH_FACTOR` (line 146): normalization factor per bit depth. -/
def BITDEPTH_FACTOR : List (String × ℚ) :=
  [("8", 255), ("15+1", 32768), ("16", 65535), ("32", 1)]

/-- `isErr e` is true when the modeled Python call raised. -/
def isErr {α : Type} : Except String α → Bool
  | .error _ => true
  | .ok _ => false

/-- `validate_rgb_values` (lines 3029-3044): checks that the RGB values are
inside `[0, max_val]` for the bit depth's factor and returns them together
with the factor.  The source looks the bit depth up in `BITDEPTH_FACTOR`
and raises `ValueError` when it is absent. -/
def validate_rgb_values (bitdepth : String) (red green blue : ℚ) :
    Except String (ℚ × ℚ × ℚ × ℚ) :=
  match dictLookup BITDEPTH_FACTOR bitdepth with
  | none => .error ("Invalid bit depth specified: " ++ bitdepth)
  | some max_val =>
    if ¬(0 ≤ red ∧ red ≤ max_val ∧ 0 ≤ green ∧ green ≤ max_val ∧
         0 ≤ blue ∧ blue ≤ max_val) then
      .error ("RGB values are out of range for the specified bit depth: " ++ bitdepth)
    else
      .ok (red, green, blue, max_val)

/-- `validate_cielchab_values` (lines 3072-3094): after checking the bit
depth is a key of `BITDEPTH_FACTOR`, the source iterates over the literal
`value_ranges` dict `{lchab_l_val: (0, 100), lchab_ch_val: (0, 230),
lchab_ab_val: (0, 360)}` in insertion order and raises `ValueError` at the
first value outside its range; the ranges do not depend on the bit depth,
only the returned factor does. -/
def validate_cielchab_values (bitdepth : String)
    (lchab_l_val lchab_ch_val lchab_ab_val : ℚ) :
    Except String (ℚ × ℚ × ℚ × ℚ) :=
  match dictLookup BITDEPTH_FACTOR bitdepth with
  | none => .error ("Invalid bit depth specified: " ++ bitdepth)
  | some factor =>
    if ¬(0 ≤ lchab_l_val ∧ lchab_l_val ≤ 100) then
      .error "lchab_l_val is out of range"
    else if ¬(0 ≤ lchab_ch_val ∧ lchab_ch_val ≤ 230) then
      .error "lchab_ch_val is out of range"
    else if ¬(0 ≤ lchab_ab_val ∧ lchab_ab_val ≤ 360) then
      .error "lchab_ab_val is out of range"
    else
      .ok (lchab_l_val, lchab_ch_val, lchab_ab_val, factor)

/-- The set of CIELCHab triples accepted (no exception) for a bit depth. -/
def cielchabAccepts (bitdepth : String) : ℚ → ℚ → ℚ → Bool :=
  fun lv ch ab => !(isErr (validate_cielchab_values bitdepth lv ch ab))

/-- `validate_spectrum_values` (lines 3183-3219).  `start`, `stop` and
`interval` are `int`-typed CLI arguments; `data` is a list of floats.  The
expected length is Python `int((stop - start) / interval) + 1`; `int` of a
float truncates toward zero, which `Int.tdiv` models (at the point the
length check runs `stop > start` and `interval ≥ 1` already hold, so the
float division is exact and truncation agrees with floor). -/
def validate_spectrum_values (start stop interval : ℤ) (data : List ℚ) :
    Except String (ℤ × ℤ × ℤ × List ℚ) :=
  if ¬(380 ≤ start ∧ start ≤ 750 ∧ 400 ≤ stop ∧ stop ≤ 780 ∧
       1 ≤ interval ∧ interval ≤ 20) then
    .error "Spectral parameters are out of range"
  else if stop ≤ start then
    .error "Stop value should be greater than start value"
  else if (data.length : ℤ) ≠ Int.tdiv (stop - start) interval + 1 then
    .error "Data length mismatch."
  else if data.any (fun x => x < 0) || data.any (fun x => 1 < x) then
    .error "Spectral data values are out of 0-1 range"
  else
    .ok (start, stop, interval, data)

/-- Round half to even (the rounding mode of `np.round`). -/
def roundHalfToEven (x : ℚ) : ℤ :=
  let f := ⌊x⌋
  let r := x - f
  if r < 1 / 2 then f
  else if 1 / 2 < r then f + 1
  else if f % 2 = 0 then f else f + 1

/-- `np.round(x, p)` on an exact rational. -/
def np_round (x : ℚ) (p : ℕ) : ℚ :=
  (roundHalfToEven (x * 10 ^ p) : ℚ) / 10 ^ p

/-- `normalize` (lines 2779-2781): divide the three coordinates by the
bit-depth factor. -/
def normalize (a b c factor : ℚ) : List ℚ :=
  [a / factor, b / factor, c / factor]

/-- `denormalize` (lines 2760-2776): empty `factors` defaults to `[1]`;
`factors` is extended with copies of its first element up to the length of
`a` (Python's `[x] * n` is empty for `n ≤ 0`, like `List.replicate`); the
products are rounded to 3 decimals with `np.round`.  NumPy broadcasting
(which would fail for `1 < len(factors) ≠ len(a)`) is modeled by `zip`,
adequate for the call sites where `len(factors) ≤ len(a)`. -/
def denormalize (a : List ℚ) (factors : List ℚ) : List ℚ :=
  let fs := if factors = [] then [1] else factors
  let fs := fs ++ List.replicate (a.length - fs.length) (fs.headD 1)
  (a.zip fs).map (fun p => np_round (p.1 * p.2) 3)

/-- The namespace of parsed CLI arguments relevant to choosing the input
color model (`parse_arguments`, lines 2905-3014).  Each float-typed
argument defaults to `None`, modeled by `Option`. -/
structure Args where
  lstar : Option ℚ
  astar : Option ℚ
  bstar : Option ℚ
  lchab_l_val : Option ℚ
  lchab_ch_val : Option ℚ
  lchab_ab_val : Option ℚ
  l_val : Option ℚ
  u_val : Option ℚ
  v_val : Option ℚ
  lchuv_l_val : Option ℚ
  lchuv_ch_val : Option ℚ
  lchuv_uv_val : Option ℚ
  x_val : Option ℚ
  y_val : Option ℚ
  z_val : Option ℚ
  red : Option ℚ
  green : Option ℚ
  blue : Option ℚ
  start : Option ℤ
  stop : Option ℤ
  interval : Option ℤ
  data : Option (List ℚ)
  wave : Option ℚ

/-- `determine_color_model` (lines 2799-2830): the chain of
`is not None` tests, in source order. -/
def determine_color_model (args : Args) : Option String :=
  if args.lstar.isSome && args.astar.isSome && args.bstar.isSome then
    some "CIELAB"
  else if args.lchab_l_val.isSome && args.lchab_ch_val.isSome &&
      args.lchab_ab_val.isSome then
    some "CIELCHab"
  else if args.l_val.isSome && args.u_val.isSome && args.v_val.isSome then
    some "CIELUV"
  else if args.lchuv_l_val.isSome && args.lchuv_ch_val.isSome &&
      args.lchuv_uv_val.isSome then
    some "CIELCHuv"
  else if args.x_val.isSome && args.y_val.isSome && args.z_val.isSome then
    some "CIEXYZ"
  else if args.red.isSome && args.green.isSome && args.blue.isSome then
    some "RGB"
  else if args.start.isSome && args.stop.isSome && args.interval.isSome &&
      args.data.isSome then
    some "Spectrum"
  else if args.wave.isSome then
    some "Wavelength"
  else
    none

/-- The eight input models in the priority order of
`determine_color_model`'s if-chain. -/
def MODEL_PRIORITY : List String :=
  ["CIELAB", "CIELCHab", "CIELUV", "CIELCHuv", "CIEXYZ", "RGB",
   "Spectrum", "Wavelength"]

/-- Whether `args` carries the complete value set of a given model (the
condition tested by the corresponding branch of `determine_color_model`). -/
def completeValueSet (model : String) (args : Args) : Bool :=
  if model = "CIELAB" then
    args.lstar.isSome && args.astar.isSome && args.bstar.isSome
  else if model = "CIELCHab" then
    args.lchab_l_val.isSome && args.lchab_ch_val.isSome &&
      args.lchab_ab_val.isSome
  else if model = "CIELUV" then
    args.l_val.isSome && args.u_val.isSome && args.v_val.isSome
  else if model = "CIELCHuv" then
    args.lchuv_l_val.isSome && args.lchuv_ch_val.isSome &&
      args.lchuv_uv_val.isSome
  else if model = "CIEXYZ" then
    args.x_val.isSome && args.y_val.isSome && args.z_val.isSome
  else if model = "RGB" then
    args.red.isSome && args.green.isSome && args.blue.isSome
  else if model = "Spectrum" then
    args.start.isSome && args.stop.isSome && args.interval.isSome &&
      args.data.isSome
  else if model = "Wavelength" then
    args.wave.isSome
  else
    false

/-- The tail of `parse_arguments` (lines 3016-3026): when
`determine_color_model` returns `None` the parser's `error` method runs,
which prints help and calls `sys.exit(2)` (`MyParser.error`, lines
2792-2796); otherwise parsing succeeds with the model.  The numeric error
payload is the process exit status. -/
def parse_arguments_model (args : Args) : Except Nat String :=
  match determine_color_model args with
  | some model => .ok model
  | none => .error 2

/-- C2: `determine_color_model` returns a color model exactly when the
parsed arguments contain the complete value set of at least one of the
eight input models, selecting the first complete set in the fixed priority
order CIELAB, CIELCHab, CIELUV, CIELCHuv, CIEXYZ, RGB, Spectrum,
Wavelength; when no complete set is supplied, argument parsing reports the
error and the program exits with status 2. -/
theorem determine_color_model_spec (args : Args) :
    determine_color_model args =
      MODEL_PRIORITY.find? (fun m => completeValueSet m args) ∧
    ((determine_color_model args).isSome ↔
      ∃ m ∈ MODEL_PRIORITY, completeValueSet m args = true) ∧
    (determine_color_model args = none →
      parse_arguments_model args = .error 2) := by
  have hfind : determine_color_model args =
      MODEL_PRIORITY.find? (fun m => completeValueSet m args) := by
    cases h1 : args.lstar.isSome && args.astar.isSome && args.bstar.isSome <;>
    cases h2 : args.lchab_l_val.isSome && args.lchab_ch_val.isSome &&
      args.lchab_ab_val.isSome <;>
    cases h3 : args.l_val.isSome && args.u_val.isSome && args.v_val.isSome <;>
    cases h4 : args.lchuv_l_val.isSome && args.lchuv_ch_val.isSome &&
      args.lchuv_uv_val.isSome <;>
    cases h5 : args.x_val.isSome && args.y_val.isSome && args.z_val.isSome <;>
    cases h6 : args.red.isSome && args.green.isSome && args.blue.isSome <;>
    cases h7 : args.start.isSome && args.stop.isSome && args.interval.isSome &&
      args.data.isSome <;>
    cases h8 : args.wave.isSome <;>
    simp [determine_color_model, MODEL_PRIORITY, List.find?, completeValueSet,
      h1, h2, h3, h4, h5, h6, h7, h8]
  refine ⟨hfind, ?_, ?_⟩
  · rw [hfind]
    simp [List.find?_isSome]
  · intro h
    simp [parse_arguments_model, h]

/-- C4: `validate_rgb_values(bitdepth, red, green, blue)` raises
`ValueError` if and only if at least one of red, green, blue lies outside
`[0, M]`, where `M` is 255 for bit depth "8", 32768 for "15+1", 65535 for
"16" and 1 for "32"; otherwise it returns the three values unchanged
together with `M`. -/
theorem validate_rgb_values_spec :
    (dictLookup BITDEPTH_FACTOR "8" = some 255 ∧
     dictLookup BITDEPTH_FACTOR "15+1" = some 32768 ∧
     dictLookup BITDEPTH_FACTOR "16" = some 65535 ∧
     dictLookup BITDEPTH_FACTOR "32" = some 1) ∧
    ∀ (bitdepth : String) (M red green blue : ℚ),
      dictLookup BITDEPTH_FACTOR bitdepth = some M →
      (isErr (validate_rgb_values bitdepth red green blue) = true ↔
        (red < 0 ∨ M < red ∨ green < 0 ∨ M < green ∨ blue < 0 ∨ M < blue)) ∧
      ((0 ≤ red ∧ red ≤ M ∧ 0 ≤ green ∧ green ≤ M ∧ 0 ≤ blue ∧ blue ≤ M) →
        validate_rgb_values bitdepth red green blue =
          .ok (red, green, blue, M)) := by
  refine ⟨⟨by decide, by decide, by decide, by decide⟩, ?_⟩
  intro bitdepth M red green blue h
  have hPD : (red < 0 ∨ M < red ∨ green < 0 ∨ M < green ∨ blue < 0 ∨ M < blue) ↔
      ¬(0 ≤ red ∧ red ≤ M ∧ 0 ≤ green ∧ green ≤ M ∧ 0 ≤ blue ∧ blue ≤ M) := by
    simp only [not_and_or, not_le]
  constructor
  · rw [hPD]
    simp only [validate_rgb_values, h]
    by_cases hin : 0 ≤ red ∧ red ≤ M ∧ 0 ≤ green ∧ green ≤ M ∧
        0 ≤ blue ∧ blue ≤ M
    · rw [if_neg (not_not_intro hin)]
      simp [isErr, hin]
    · rw [if_pos hin]
      simp [isErr, hin]
  · intro hin
    simp only [validate_rgb_values, h]
    rw [if_neg (not_not_intro hin)]

/-- Witness for C4 at bit depth "8" and in-range values. -/
theorem validate_rgb_values_spec_witness :
    validate_rgb_values "8" 10 20 30 = .ok (10, 20, 30, 255) :=
  ((validate_rgb_values_spec.2 "8" 255 10 20 30 (by decide)).2
    (by norm_num))

/-- C5 counterexample: the claim says the set of accepted CIELCHab value
triples differs between bit depths; in fact `validate_cielchab_values`
checks every bit depth against the same fixed ranges, so the accepted sets
for bit depths "8" and "16" are identical (and "8" ≠ "16"). -/
theorem cielchab_accepts_independent_of_bitdepth :
    cielchabAccepts "8" = cielchabAccepts "16" ∧ "8" ≠ "16" := by
  refine ⟨?_, by decide⟩
  funext lv ch ab
  simp only [cielchabAccepts, validate_cielchab_values]
  norm_num [dictLookup, BITDEPTH_FACTOR, List.find?]
  split_ifs <;> rfl

/-- C5 amended: for every supported bit depth, `validate_cielchab_values`
accepts L, C, h exactly when `L ∈ [0,100]`, `C ∈ [0,230]` and
`h ∈ [0,360]` — ranges that do not depend on the bit depth, which only
determines the returned normalization factor — so the set of accepted
triples is the same for all supported bit depths. -/
theorem validate_cielchab_values_spec (bitdepth : String) (factor lv ch ab : ℚ)
    (h : dictLookup BITDEPTH_FACTOR bitdepth = some factor) :
    (cielchabAccepts bitdepth lv ch ab = true ↔
      (0 ≤ lv ∧ lv ≤ 100 ∧ 0 ≤ ch ∧ ch ≤ 230 ∧ 0 ≤ ab ∧ ab ≤ 360)) ∧
    ((0 ≤ lv ∧ lv ≤ 100 ∧ 0 ≤ ch ∧ ch ≤ 230 ∧ 0 ≤ ab ∧ ab ≤ 360) →
      validate_cielchab_values bitdepth lv ch ab = .ok (lv, ch, ab, factor)) ∧
    (∀ bitdepth' factor',
      dictLookup BITDEPTH_FACTOR bitdepth' = some factor' →
      cielchabAccepts bitdepth = cielchabAccepts bitdepth') := by
  have key : ∀ (bd : String) (f : ℚ),
      dictLookup BITDEPTH_FACTOR bd = some f →
      ∀ (l c a : ℚ), cielchabAccepts bd l c a = true ↔
        (0 ≤ l ∧ l ≤ 100 ∧ 0 ≤ c ∧ c ≤ 230 ∧ 0 ≤ a ∧ a ≤ 360) := by
    intro bd f hf l c a
    simp only [cielchabAccepts, validate_cielchab_values, hf]
    by_cases h1 : 0 ≤ l ∧ l ≤ 100
    · rw [if_neg (not_not_intro h1)]
      by_cases h2 : 0 ≤ c ∧ c ≤ 230
      · rw [if_neg (not_not_intro h2)]
        by_cases h3 : 0 ≤ a ∧ a ≤ 360
        · rw [if_neg (not_not_intro h3)]
          exact ⟨fun _ => ⟨h1.1, h1.2, h2.1, h2.2, h3.1, h3.2⟩,
            fun _ => by simp [isErr]⟩
        · rw [if_pos h3]
          refine ⟨fun hcon => absurd hcon (by simp [isErr]), ?_⟩
          rintro ⟨-, -, -, -, b5, b6⟩
          exact absurd ⟨b5, b6⟩ h3
      · rw [if_pos h2]
        refine ⟨fun hcon => absurd hcon (by simp [isErr]), ?_⟩
        rintro ⟨-, -, b3, b4, -, -⟩
        exact absurd ⟨b3, b4⟩ h2
    · rw [if_pos h1]
      refine ⟨fun hcon => absurd hcon (by simp [isErr]), ?_⟩
      rintro ⟨b1, b2, -, -, -, -⟩
      exact absurd ⟨b1, b2⟩ h1
  refine ⟨key bitdepth factor h lv ch ab, ?_, ?_⟩
  · rintro ⟨a1, a2, a3, a4, a5, a6⟩
    simp only [validate_cielchab_values, h]
    rw [if_neg (not_not_intro ⟨a1, a2⟩), if_neg (not_not_intro ⟨a3, a4⟩),
      if_neg (not_not_intro ⟨a5, a6⟩)]
  · intro bd' f' hf'
    funext l c a
    have k1 := key bitdepth factor h l c a
    have k2 := key bd' f' hf' l c a
    by_cases hr : 0 ≤ l ∧ l ≤ 100 ∧ 0 ≤ c ∧ c ≤ 230 ∧ 0 ≤ a ∧ a ≤ 360
    · rw [k1.mpr hr, k2.mpr hr]
    · have e1 : cielchabAccepts bitdepth l c a = false := by
        rcases Bool.eq_false_or_eq_true (cielchabAccepts bitdepth l c a) with
          hb | hb
        · exact absurd (k1.mp hb) hr
        · exact hb
      have e2 : cielchabAccepts bd' l c a = false := by
        rcases Bool.eq_false_or_eq_true (cielchabAccepts bd' l c a) with
          hb | hb
        · exact absurd (k2.mp hb) hr
        · exact hb
      rw [e1, e2]

/-- Witness for C5's amended theorem at bit depth "15+1". -/
theorem validate_cielchab_values_spec_witness :
    validate_cielchab_values "15+1" 50 100 180 = .ok (50, 100, 180, 32768) :=
  (validate_cielchab_values_spec "15+1" 32768 50 100 180 (by decide)).2.1
    (by norm_num)

/-- C6: `validate_spectrum_values(start, stop, interval, data)` raises
`ValueError` if and only if start is outside [380, 750], stop is outside
[400, 780], interval is outside [1, 20], `stop <= start`, the length of
data differs from `int((stop - start) / interval) + 1`, or some element of
data lies outside [0, 1]; otherwise it returns start, stop, interval and
the data values unchanged. -/
theorem validate_spectrum_values_spec (start stop interval : ℤ)
    (data : List ℚ) :
    (isErr (validate_spectrum_values start stop interval data) = true ↔
      (start < 380 ∨ 750 < start ∨ stop < 400 ∨ 780 < stop ∨
       interval < 1 ∨ 20 < interval ∨ stop ≤ start ∨
       (data.length : ℤ) ≠ Int.tdiv (stop - start) interval + 1 ∨
       ∃ x ∈ data, x < 0 ∨ 1 < x)) ∧
    (¬(start < 380 ∨ 750 < start ∨ stop < 400 ∨ 780 < stop ∨
       interval < 1 ∨ 20 < interval ∨ stop ≤ start ∨
       (data.length : ℤ) ≠ Int.tdiv (stop - start) interval + 1 ∨
       ∃ x ∈ data, x < 0 ∨ 1 < x) →
      validate_spectrum_values start stop interval data =
        .ok (start, stop, interval, data)) := by
  have hdata : (data.any (fun x => x < 0) || data.any (fun x => 1 < x)) = true ↔
      ∃ x ∈ data, x < 0 ∨ 1 < x := by
    simp [List.any_eq_true, exists_or]
    constructor
    · rintro (⟨x, hx, hlt⟩ | ⟨x, hx, hlt⟩)
      · exact ⟨x, hx, Or.inl hlt⟩
      · exact ⟨x, hx, Or.inr hlt⟩
    · rintro ⟨x, hx, hlt | hlt⟩
      · exact Or.inl ⟨x, hx, hlt⟩
      · exact Or.inr ⟨x, hx, hlt⟩
  constructor
  · rw [validate_spectrum_values]
    by_cases h1 : 380 ≤ start ∧ start ≤ 750 ∧ 400 ≤ stop ∧ stop ≤ 780 ∧
        1 ≤ interval ∧ interval ≤ 20
    · rw [if_neg (not_not_intro h1)]
      by_cases h2 : stop ≤ start
      · rw [if_pos h2]
        simp only [isErr, true_iff]
        exact Or.inr (Or.inr (Or.inr (Or.inr (Or.inr (Or.inr (Or.inl h2))))))
      · rw [if_neg h2]
        by_cases h3 : (data.length : ℤ) ≠ Int.tdiv (stop - start) interval + 1
        · rw [if_pos h3]
          simp only [isErr, true_iff]
          exact Or.inr (Or.inr (Or.inr (Or.inr (Or.inr (Or.inr
            (Or.inr (Or.inl h3)))))))
        · rw [if_neg h3]
          by_cases h4 : (data.any (fun x => x < 0) ||
              data.any (fun x => 1 < x)) = true
          · rw [if_pos h4]
            simp only [isErr, true_iff]
            exact Or.inr (Or.inr (Or.inr (Or.inr (Or.inr (Or.inr
              (Or.inr (Or.inr (hdata.mp h4))))))))
          · rw [if_neg h4]
            simp only [isErr, Bool.false_eq_true, false_iff]
            push_neg at h3
            rintro (hc | hc | hc | hc | hc | hc | hc | hc | hc)
            · exact absurd h1.1 (not_le.mpr hc)
            · exact absurd h1.2.1 (not_le.mpr hc)
            · exact absurd h1.2.2.1 (not_le.mpr hc)
            · exact absurd h1.2.2.2.1 (not_le.mpr hc)
            · exact absurd h1.2.2.2.2.1 (not_le.mpr hc)
            · exact absurd h1.2.2.2.2.2 (not_le.mpr hc)
            · exact h2 hc
            · exact hc h3
            · exact h4 (hdata.mpr hc)
    · rw [if_pos h1]
      simp only [isErr, true_iff]
      rcases not_and_or.mp h1 with hc | hrest
      · exact Or.inl (not_le.mp hc)
      · rcases not_and_or.mp hrest with hc | hrest
        · exact Or.inr (Or.inl (not_le.mp hc))
        · rcases not_and_or.mp hrest with hc | hrest
          · exact Or.inr (Or.inr (Or.inl (not_le.mp hc)))
          · rcases not_and_or.mp hrest with hc | hrest
            · exact Or.inr (Or.inr (Or.inr (Or.inl (not_le.mp hc))))
            · rcases not_and_or.mp hrest with hc | hc
              · exact Or.inr (Or.inr (Or.inr (Or.inr (Or.inl
                  (not_le.mp hc)))))
              · exact Or.inr (Or.inr (Or.inr (Or.inr (Or.inr (Or.inl
                  (not_le.mp hc))))))
  · intro hok
    push_neg at hok
    obtain ⟨k1, k2, k3, k4, k5, k6, k7, k8, k9⟩ := hok
    rw [validate_spectrum_values,
      if_neg (not_not_intro ⟨k1, k2, k3, k4, k5, k6⟩),
      if_neg (not_le.mpr k7), if_neg (not_not_intro k8)]
    rw [if_neg]
    intro hc
    obtain ⟨x, hx, hlt⟩ := hdata.mp hc
    rcases hlt with hlt | hlt
    · exact absurd hlt (not_lt.mpr (k9 x hx).1)
    · exact absurd hlt (not_lt.mpr (k9 x hx).2)

/-- Witness for C6: a valid 5-point spectrum from 400 to 440 nm at 10 nm. -/
theorem validate_spectrum_values_spec_witness :
    validate_spectrum_values 400 440 10 [0, 1/2, 1, 1/4, 3/4] =
      .ok (400, 440, 10, [0, 1/2, 1, 1/4, 3/4]) :=
  (validate_spectrum_values_spec 400 440 10 [0, 1/2, 1, 1/4, 3/4]).2
    (by norm_num; decide)

/-- C10: for every triple of rationals (a, b, c) and nonzero factor f,
`denormalize` applied to the output of `normalize(a, b, c, f)` with the
same single factor f returns (a, b, c) rounded to 3 decimal places
(with `np.round`'s half-to-even rounding). -/
theorem denormalize_normalize_roundtrip (a b c f : ℚ) (hf : f ≠ 0) :
    denormalize (normalize a b c f) [f] =
      [np_round a 3, np_round b 3, np_round c 3] := by
  simp only [denormalize, normalize]
  norm_num [List.zip, List.zipWith, div_mul_cancel₀, hf]

/-- Witness for C10 at (1/3, 0, 1) with factor 2. -/
theorem denormalize_normalize_roundtrip_witness :
    denormalize (normalize (1/3) 0 1 2) [2] =
      [np_round (1/3) 3, np_round 0 3, np_round 1 3] :=
  denormalize_normalize_roundtrip (1/3) 0 1 2 (by norm_num)

/-- `STANDARD_OBSERVERS` (lines 377-380). -/
def STANDARD_OBSERVERS : List String :=
  ["CIE 1931 2 Degree Standard Observer", "CIE 1964 10 Degree Standard Observer"]

/-- `CHROMATIC_ADAPTATION_TRANSFORMS` (lines 362-375). -/
def CHROMATIC_ADAPTATION_TRANSFORMS : List String :=
  ["Bianco 2010", "Bianco PC 2010", "Bradford", "CAT02", "CAT02 Brill 2008",
   "CAT16", "CMCCAT97", "CMCCAT2000", "Fairchild", "Sharp", "Von Kries",
   "XYZ Scaling"]

/-- `RGB_ILLUMINANTS_LIST` (lines 186-244). -/
def RGB_ILLUMINANTS_LIST : List String :=
  ["A", "C", "D50", "D55", "D65", "D75", "E",
   "FL1", "FL2", "FL3", "FL3.1", "FL3.2", "FL3.3", "FL3.4", "FL3.5",
   "FL3.6", "FL3.7", "FL3.8", "FL3.9", "FL3.10", "FL3.11", "FL3.12",
   "FL3.13", "FL3.14", "FL3.15", "FL4", "FL5", "FL6", "FL7", "FL8", "FL9",
   "FL10", "FL11", "FL12",
   "HP1", "HP2", "HP3", "HP4", "HP5",
   "ID50", "ID65",
   "LED-B1", "LED-B2", "LED-B3", "LED-B4", "LED-B5", "LED-BH1", "LED-RGB1",
   "LED-V1", "LED-V2",
   "ISO 7589 Sensitometric Daylight", "ISO 7589 Sensitometric Studio Tungsten",
   "ISO 7589 Sensitometric Photoflood", "ISO 7589 Sensitometric Printer",
   "ACES", "Blackmagic Wide Gamut", "DCI-P3"]

/-- `CIE_ILLUMINANTS_LIST` (lines 246-295). -/
def CIE_ILLUMINANTS_LIST : List String :=
  ["A", "D50", "D55", "D65", "D75",
   "FL1", "FL2", "FL3", "FL3.1", "FL3.2", "FL3.3", "FL3.4", "FL3.5",
   "FL3.6", "FL3.7", "FL3.8", "FL3.9", "FL3.10", "FL3.11", "FL3.12",
   "FL3.13", "FL3.14", "FL3.15", "FL4", "FL5", "FL6", "FL7", "FL8", "FL9",
   "FL10", "FL11", "FL12",
   "HP1", "HP2", "HP3", "HP4", "HP5",
   "ID50", "ID65",
   "LED-B1", "LED-B2", "LED-B3", "LED-B4", "LED-B5", "LED-BH1", "LED-RGB1",
   "LED-V1", "LED-V2"]

/-- `ISO_7589_ILLUMINANTS_LIST` (lines 354-359). -/
def ISO_7589_ILLUMINANTS_LIST : List String :=
  ["ISO 7589 Sensitometric Daylight", "ISO 7589 Sensitometric Studio Tungsten",
   "ISO 7589 Sensitometric Photoflood", "ISO 7589 Sensitometric Printer"]

/-- The illuminant list that the `__main__` loop (lines 4255-4264) iterates
over for each choice of the `--illuminant_list` argument (whose argparse
choices are exactly "CIE", "ISO_7589" and "All", line 2892); any other
string runs no loop at all. -/
def illuminantsFor (illuminant_list : String) : List String :=
  if illuminant_list = "All" then RGB_ILLUMINANTS_LIST
  else if illuminant_list = "CIE" then CIE_ILLUMINANTS_LIST
  else if illuminant_list = "ISO_7589" then ISO_7589_ILLUMINANTS_LIST
  else []

/-- The `(observer, illuminant)` pairs for which `__main__` calls
`convert_with_xyz` (lines 4255-4264): every observer crossed with the
selected illuminant list. -/
def mainAttempts (illuminant_list : String) : List (String × String) :=
  STANDARD_OBSERVERS.flatMap (fun observer =>
    (illuminantsFor illuminant_list).map (fun illuminant =>
      (observer, illuminant)))

/-- The cat tag attached to the result set a `convert_with_xyz` call
produces.  The source (lines 3436-3441) sets `cats = use_cats` for RGB
input and `cats = [None]` otherwise, and the `for cat in cats` loop body
(lines 3441-3456) only recomputes the XYZ values: every
`result(..., illuminant, observer, cat)` call comes after the loop, where
`cat` holds the final element of `cats` (for RGB with an empty `use_cats`
the later uses of `cat` raise `UnboundLocalError`, modeled as `none`
here, i.e. no tag and no result set). -/
def lastCatTag (model : String) (use_cats : List String) :
    Option (Option String) :=
  if model = "RGB" then (use_cats.getLast?).map some else some none

/-- The `(observer, illuminant, cat)` tags of the result sets one
`convert_with_xyz(observer, illuminant)` call stores (lines 3396-3993).
`hasSDS i` abstracts `i in SDS_ILLUMINANTS` and `hasCCS o i` abstracts
`i in CCS_ILLUMINANTS[o]` from the external library: the call returns
without storing anything when the model is spectral and the illuminant has
no spectral distribution, or when the illuminant has no chromaticity
coordinates for the observer (lines 3401-3404). -/
def convertWithXyzCombos (hasSDS : String → Bool)
    (hasCCS : String → String → Bool) (model : String)
    (use_cats : List String) (observer illuminant : String) :
    List (String × String × Option String) :=
  if model = "Spectrum" ∧ hasSDS illuminant = false then []
  else if hasCCS observer illuminant = false then []
  else
    match lastCatTag model use_cats with
    | some c => [(observer, illuminant, c)]
    | none => []

/-- All `(observer, illuminant, cat)` tags of result sets stored by the
fan-out loop of `__main__` in one run. -/
def mainFanout (hasSDS : String → Bool) (hasCCS : String → String → Bool)
    (model : String) (use_cats : List String) (illuminant_list : String) :
    List (String × String × Option String) :=
  STANDARD_OBSERVERS.flatMap (fun observer =>
    (illuminantsFor illuminant_list).flatMap (fun illuminant =>
      convertWithXyzCombos hasSDS hasCCS model use_cats observer illuminant))

/-- Membership in the tag list of one `convert_with_xyz` call. -/
theorem mem_convertWithXyzCombos (hasSDS : String → Bool)
    (hasCCS : String → String → Bool) (model : String)
    (use_cats : List String) (o' i' o i : String) (c : Option String) :
    (o, i, c) ∈ convertWithXyzCombos hasSDS hasCCS model use_cats o' i' ↔
      (o = o' ∧ i = i' ∧ ¬(model = "Spectrum" ∧ hasSDS i' = false) ∧
       hasCCS o' i' = true ∧ lastCatTag model use_cats = some c) := by
  rw [convertWithXyzCombos]
  by_cases h1 : model = "Spectrum" ∧ hasSDS i' = false
  · rw [if_pos h1]
    simp [h1]
  · rw [if_neg h1]
    by_cases h2 : hasCCS o' i' = false
    · rw [if_pos h2]
      simp [h2]
    · rw [if_neg h2]
      have h2' : hasCCS o' i' = true := by
        rcases Bool.eq_false_or_eq_true (hasCCS o' i') with hb | hb
        · exact hb
        · exact absurd hb h2
      cases hlast : lastCatTag model use_cats with
      | none => simp [h1, h2', hlast]
      | some c0 =>
        simp only [List.mem_singleton, Prod.mk.injEq]
        constructor
        · rintro ⟨rfl, rfl, rfl⟩
          exact ⟨rfl, rfl, h1, h2', rfl⟩
        · rintro ⟨rfl, rfl, -, -, hc⟩
          exact ⟨rfl, rfl, (Option.some_injective _ hc).symm⟩

/-- C1 counterexample: the claim says every run produces a set of
converted results for every (observer, illuminant, transform) combination
regardless of the input model.  Take a CIELAB input, the default transform
list and `--illuminant_list ISO_7589`, with the external data sets total:
"Bradford" is in the configured transform list, yet no result set tagged
(observer, illuminant, "Bradford") is stored — for non-RGB models the
transform loop runs over `[None]` only, and even for RGB the result
storage sits after the loop so only the last transform is tagged. -/
theorem fanout_misses_transform_combination :
    "Bradford" ∈ CHROMATIC_ADAPTATION_TRANSFORMS ∧
    "CIE 1931 2 Degree Standard Observer" ∈ STANDARD_OBSERVERS ∧
    "ISO 7589 Sensitometric Daylight" ∈ illuminantsFor "ISO_7589" ∧
    ("CIE 1931 2 Degree Standard Observer", "ISO 7589 Sensitometric Daylight",
        some "Bradford") ∉
      mainFanout (fun _ => true) (fun _ _ => true) "CIELAB"
        CHROMATIC_ADAPTATION_TRANSFORMS "ISO_7589" := by
  refine ⟨by decide, by decide, by decide, ?_⟩
  decide

/-- C1 amended: the fan-out in `__main__`/`convert_with_xyz` enumerates
the cross-product of the two standard observers and the configured
illuminant list, and for each non-skipped pair stores exactly one set of
converted results, tagged with `None` as the transform for every non-RGB
input model and with the *last* transform of the configured list for RGB
input; the full cross-product over the transform list is not produced
there. -/
theorem mainFanout_spec (hasSDS : String → Bool)
    (hasCCS : String → String → Bool) (model : String)
    (use_cats : List String) (illuminant_list : String)
    (o i : String) (c : Option String) :
    (o, i, c) ∈ mainFanout hasSDS hasCCS model use_cats illuminant_list ↔
      (o ∈ STANDARD_OBSERVERS ∧ i ∈ illuminantsFor illuminant_list ∧
       ¬(model = "Spectrum" ∧ hasSDS i = false) ∧ hasCCS o i = true ∧
       lastCatTag model use_cats = some c) := by
  rw [mainFanout]
  simp only [List.mem_flatMap, mem_convertWithXyzCombos]
  constructor
  · rintro ⟨o', ho', i', hi', rfl, rfl, hs, hc, hl⟩
    exact ⟨ho', hi', hs, hc, hl⟩
  · rintro ⟨ho, hi, hs, hc, hl⟩
    exact ⟨o, ho, i, hi, rfl, rfl, hs, hc, hl⟩

/-- C7: the (observer, illuminant) pairs for which conversion is attempted
are the two standard observers crossed with exactly the list selected by
`--illuminant_list` ("All" the 57-entry RGB illuminants list, "CIE" the
CIE illuminants list, "ISO_7589" the four ISO 7589 illuminants); a pair is
skipped without producing any output when the illuminant has no
chromaticity coordinates for the observer or, for spectral input, no
spectral distribution. -/
theorem mainAttempts_spec :
    (illuminantsFor "All" = RGB_ILLUMINANTS_LIST ∧
     RGB_ILLUMINANTS_LIST.length = 57) ∧
    (illuminantsFor "CIE" = CIE_ILLUMINANTS_LIST) ∧
    (illuminantsFor "ISO_7589" = ISO_7589_ILLUMINANTS_LIST ∧
     ISO_7589_ILLUMINANTS_LIST.length = 4 ∧
     STANDARD_OBSERVERS.length = 2) ∧
    (∀ (illuminant_list : String) (o i : String),
      (o, i) ∈ mainAttempts illuminant_list ↔
        (o ∈ STANDARD_OBSERVERS ∧ i ∈ illuminantsFor illuminant_list)) ∧
    (∀ (hasSDS : String → Bool) (hasCCS : String → String → Bool)
       (model : String) (use_cats : List String) (o i : String),
      (hasCCS o i = false ∨ (model = "Spectrum" ∧ hasSDS i = false)) →
      convertWithXyzCombos hasSDS hasCCS model use_cats o i = []) := by
  refine ⟨⟨rfl, rfl⟩, rfl, ⟨rfl, rfl, rfl⟩, ?_, ?_⟩
  · intro illuminant_list o i
    rw [mainAttempts]
    simp only [List.mem_flatMap, List.mem_map, Prod.mk.injEq]
    constructor
    · rintro ⟨o', ho', i', hi', rfl, rfl⟩
      exact ⟨ho', hi'⟩
    · rintro ⟨ho, hi⟩
      exact ⟨o, ho, i, hi, rfl, rfl⟩
  · rintro hasSDS hasCCS model use_cats o i (hc | hs)
    · rw [convertWithXyzCombos]
      by_cases h1 : model = "Spectrum" ∧ hasSDS i = false
      · rw [if_pos h1]
      · rw [if_neg h1, if_pos hc]
    · rw [convertWithXyzCombos, if_pos hs]

/-- Witness for C7's skip clause: a spectral input and an illuminant with
no spectral distribution yields no output. -/
theorem mainAttempts_spec_witness :
    convertWithXyzCombos (fun _ => false) (fun _ _ => true) "Spectrum"
      ["Bradford"] "CIE 1931 2 Degree Standard Observer" "D65" = [] :=
  mainAttempts_spec.2.2.2.2 (fun _ => false) (fun _ _ => true) "Spectrum"
    ["Bradford"] "CIE 1931 2 Degree Standard Observer" "D65"
    (Or.inr ⟨rfl, rfl⟩)

/-- Keys occurring in the result dictionary: strings, numbers, or Python
`False` (the default of `result`'s `illuminant` and `observer`
parameters).  CPython's `False == 0` key equivalence is not modeled; no
numeric key coexists with `False` in this program. -/
inductive Key where
  | str : String → Key
  | num : ℚ → Key
  | fls : Key
deriving DecidableEq

/-- Python values stored in the result dictionary: strings, numbers,
lists (also standing for NumPy arrays, which `result` treats identically
via `isinstance(value, (list, np.ndarray))`), and dicts as
insertion-ordered association lists. -/
inductive PyVal where
  | str : String → PyVal
  | num : ℚ → PyVal
  | list : List PyVal → PyVal
  | dict : List (Key × PyVal) → PyVal

/-- Dict lookup (`d[k]` on a Python dict). -/
def getKey (d : List (Key × PyVal)) (k : Key) : Option PyVal :=
  (d.find? (fun p => p.1 == k)).map (fun p => p.2)

/-- Dict assignment `d[k] = v`: replace in place or append, like CPython. -/
def setKey (d : List (Key × PyVal)) (k : Key) (v : PyVal) :
    List (Key × PyVal) :=
  match d with
  | [] => [(k, v)]
  | (k', v') :: rest =>
    if k' = k then (k, v) :: rest else (k', v') :: setKey rest k v

/-- Python `==` between a list element and a key (only string and numeric
comparisons can succeed; containers never equal a string/number key). -/
def keyEq (v : PyVal) (k : Key) : Bool :=
  match v, k with
  | .str s, .str t => s == t
  | .num q, .num r => q == r
  | _, _ => false

/-- Python `k in v` for the container kinds a result-dict value can have:
key test on dicts, element test on lists, substring test on strings,
`TypeError` on numbers. -/
def containsKey (v : PyVal) (k : Key) : Except String Bool :=
  match v with
  | .dict d => .ok ((getKey d k).isSome)
  | .list l => .ok (l.any (fun x => keyEq x k))
  | .str t =>
    match k with
    | .str s => .ok (1 < (t.splitOn s).length)
    | _ => .error "TypeError"
  | .num _ => .error "TypeError"

/-- Python `v[k]` on a stored value (`TypeError` unless it is a dict;
integer indexing of lists does not occur on the modeled paths). -/
def getIndex (v : PyVal) (k : Key) : Except String PyVal :=
  match v with
  | .dict d =>
    match getKey d k with
    | some x => .ok x
    | none => .error "KeyError"
  | _ => .error "TypeError"

/-- Python `v[k] = x` on a stored value (`TypeError` unless a dict). -/
def setIndex (v : PyVal) (k : Key) (x : PyVal) : Except String PyVal :=
  match v with
  | .dict d => .ok (.dict (setKey d k x))
  | _ => .error "TypeError"

/-- Python truthiness of a key argument (`if observer:`): `False` and the
empty string are falsy. -/
def truthy : Key → Bool
  | .str s => s ≠ ""
  | .num q => q ≠ 0
  | .fls => false

/-- A code item used as a dict key by `dict(zip(codes, value))`; lists and
dicts are unhashable and raise `TypeError`. -/
def toKey : PyVal → Except String Key
  | .str s => .ok (.str s)
  | .num q => .ok (.num q)
  | _ => .error "TypeError"

/-- `zip(codes, comps)` with each code hashed into a key: truncating zip,
in iteration order. -/
def zipPairs : List PyVal → List PyVal → Except String (List (Key × PyVal))
  | _, [] => .ok []
  | [], _ :: _ => .ok []
  | code :: codes, comp :: comps => do
    let k ← toKey code
    let rest ← zipPairs codes comps
    pure ((k, comp) :: rest)

/-- `dict(pairs)`: sequential insertion, later duplicates win. -/
def dictOfPairs (pairs : List (Key × PyVal)) : List (Key × PyVal) :=
  pairs.foldl (fun d p => setKey d p.1 p.2) []

/-- `value` if it is a list (or NumPy array), else `[value]` (the
wrapping before `zip`, lines 4014-4015). -/
def components : PyVal → List PyVal
  | .list l => l
  | v => [v]

/-- The codes repackaging of `result` (lines 4013-4016): when the model's
template has a `"codes"` entry, the stored value becomes
`dict(zip(res[model]["codes"], value))`; otherwise the value is stored
as given. -/
def storedValue (tmpl : PyVal) (value : PyVal) : Except String PyVal := do
  let hasCodes ← containsKey tmpl (.str "codes")
  if hasCodes then do
    let codes ← getIndex tmpl (.str "codes")
    let codeList ←
      match codes with
      | .list l => Except.ok l
      | _ => Except.error "TypeError"
    let pairs ← zipPairs codeList (components value)
    pure (PyVal.dict (dictOfPairs pairs))
  else
    pure value

/-- `result` (lines 3995-4039), the flat result-assembly function.  The
`use_space_separated` branch calls `isinstance` with a single argument and
raises `TypeError` before inspecting anything else, so it is modeled as an
immediate error (no call site passes `True`); the second flag is unused on
the modeled path and named `noSciFlag` here.  The `res[model]` template
lookup for the `"codes"` field (line 4013) happens before the
`model not in res` guard (line 4018), so an absent model key raises
`KeyError` and the guard's branch is unreachable (it is omitted below).
After the optional codes repackaging, the value is stored under
`res[model][observer][illuminant][cat]` / `res[model][observer][illuminant]`
/ `res[model][illuminant][cat]` / `res[model][illuminant]` /
`res[model]["None"]` depending on which of observer, illuminant, cat were
supplied. -/
def result (res : List (Key × PyVal)) (model : String) (value : PyVal)
    (illuminant observer : Key) (cat : Option String)
    (use_space_separated : Bool) (_noSciFlag : Bool) :
    Except String (List (Key × PyVal)) := do
  if use_space_separated then
    throw "TypeError"
  else
    match getKey res (.str model) with
    | none => throw "KeyError"
    | some tmpl => do
      let value ← storedValue tmpl value
      if truthy observer then do
        let hasObs ← containsKey tmpl observer
        let mdict ← if hasObs then pure tmpl else setIndex tmpl observer (.dict [])
        let odict ← getIndex mdict observer
        let hasIll ← containsKey odict illuminant
        let odict ← if hasIll then pure odict
          else setIndex odict illuminant (.dict [])
        match cat with
        | none => do
          let odict ← setIndex odict illuminant value
          let mdict ← setIndex mdict observer odict
          pure (setKey res (.str model) mdict)
        | some c => do
          let idict ← getIndex odict illuminant
          let idict ← setIndex idict (.str c) value
          let odict ← setIndex odict illuminant idict
          let mdict ← setIndex mdict observer odict
          pure (setKey res (.str model) mdict)
      else if truthy illuminant then do
        let hasIll ← containsKey tmpl illuminant
        let mdict ← if hasIll then pure tmpl
          else setIndex tmpl illuminant (.dict [])
        match cat with
        | none => do
          let mdict ← setIndex mdict illuminant value
          pure (setKey res (.str model) mdict)
        | some c => do
          let idict ← getIndex mdict illuminant
          let idict ← setIndex idict (.str c) value
          let mdict ← setIndex mdict illuminant idict
          pure (setKey res (.str model) mdict)
      else do
        let mdict ← setIndex tmpl (.str "None") value
        pure (setKey res (.str model) mdict)

/-- Updating a dict and reading the same key back gives the new value. -/
theorem getKey_setKey_self (d : List (Key × PyVal)) (k : Key) (v : PyVal) :
    getKey (setKey d k v) k = some v := by
  induction d with
  | nil => simp [setKey, getKey]
  | cons p rest ih =>
    rcases p with ⟨k', v'⟩
    by_cases h : k' = k
    · simp [setKey, h, getKey]
    · have hbe : (k' == k) = false := by
        simp [h]
      simp only [setKey, if_neg h]
      simpa [getKey, List.find?, hbe] using ih

/-- Two successive updates at the same key collapse to the second. -/
theorem setKey_setKey_same (d : List (Key × PyVal)) (k : Key) (v w : PyVal) :
    setKey (setKey d k v) k w = setKey d k w := by
  induction d with
  | nil => simp [setKey]
  | cons p rest ih =>
    rcases p with ⟨k', v'⟩
    by_cases h : k' = k
    · simp [setKey, h]
    · simp [setKey, h, ih]

/-- Zipping string codes with components never raises and produces the
plain truncating zip. -/
theorem zipPairs_strs (codes : List String) (comps : List PyVal) :
    zipPairs (codes.map PyVal.str) comps =
      .ok ((codes.map Key.str).zip comps) := by
  induction codes generalizing comps with
  | nil => cases comps <;> simp [zipPairs]
  | cons c cs ih =>
    cases comps with
    | nil => simp [zipPairs]
    | cons x xs =>
      simp [zipPairs, toKey, ih, bind, Except.bind, pure, Except.pure]

/-- C9: a call to `result` (with the default `use_space_separated=False`)
whose model key is not present in `res` raises `KeyError`: the template
lookup `res[model]` for the `"codes"` field precedes the
`model not in res` guard, so the branch that would create `res[model]` is
never executed. -/
theorem result_missing_model_raises (res : List (Key × PyVal))
    (model : String) (value : PyVal) (illuminant observer : Key)
    (cat : Option String) (ns : Bool)
    (h : getKey res (.str model) = none) :
    result res model value illuminant observer cat false ns =
      .error "KeyError" := by
  simp [result, h, throw, throwThe, MonadExceptOf.throw]

/-- Witness for C9: storing under the model key "cfi" on an empty result
dictionary raises `KeyError`. -/
theorem result_missing_model_raises_witness :
    result [] "cfi" (.num 1) Key.fls Key.fls none false false =
      .error "KeyError" :=
  result_missing_model_raises [] "cfi" (.num 1) Key.fls Key.fls none false
    rfl

/-- The dict found at key `k`, treating a missing key as the fresh `{}`
that `result` inserts; `none` when a non-dict value sits there (in which
case the call would raise `TypeError`). -/
def getSub (d : List (Key × PyVal)) (k : Key) : Option (List (Key × PyVal)) :=
  match getKey d k with
  | none => some []
  | some (.dict dd) => some dd
  | some _ => none

/-- Neither observer nor illuminant given: store under `res[model]["None"]`. -/
theorem result_neither_case (res td : List (Key × PyVal)) (model : String)
    (value v' : PyVal) (cat : Option String) (ns : Bool)
    (hm : getKey res (.str model) = some (.dict td))
    (hv : storedValue (.dict td) value = .ok v') :
    result res model value Key.fls Key.fls cat false ns =
      .ok (setKey res (.str model) (.dict (setKey td (.str "None") v'))) := by
  simp [result, hm, hv, truthy, setIndex, bind, Except.bind, pure, Except.pure]

/-- Only an illuminant given, no cat: store under `res[model][illuminant]`. -/
theorem result_ill_none_case (res td : List (Key × PyVal)) (model : String)
    (value v' : PyVal) (il : String) (ns : Bool)
    (hm : getKey res (.str model) = some (.dict td))
    (hv : storedValue (.dict td) value = .ok v')
    (hil : il ≠ "") :
    result res model value (.str il) Key.fls none false ns =
      .ok (setKey res (.str model) (.dict (setKey td (.str il) v'))) := by
  rcases hgi : getKey td (.str il) with _ | w
  · simp [result, hm, hv, truthy, hil, containsKey, hgi, setIndex, getIndex,
      getKey_setKey_self, setKey_setKey_same, bind, Except.bind, pure,
      Except.pure]
  · simp [result, hm, hv, truthy, hil, containsKey, hgi, setIndex, getIndex,
      bind, Except.bind, pure, Except.pure]

/-- Only an illuminant given, with a cat: store under
`res[model][illuminant][cat]`. -/
theorem result_ill_cat_case (res td idd : List (Key × PyVal))
    (model : String) (value v' : PyVal) (il c : String) (ns : Bool)
    (hm : getKey res (.str model) = some (.dict td))
    (hv : storedValue (.dict td) value = .ok v')
    (hil : il ≠ "")
    (hsub : getSub td (.str il) = some idd) :
    result res model value (.str il) Key.fls (some c) false ns =
      .ok (setKey res (.str model) (.dict (setKey td (.str il)
        (.dict (setKey idd (.str c) v'))))) := by
  rcases hgi : getKey td (.str il) with _ | w
  · simp only [getSub, hgi, Option.some.injEq] at hsub
    subst hsub
    simp [result, hm, hv, truthy, hil, containsKey, hgi, setIndex, getIndex,
      getKey_setKey_self, setKey_setKey_same, bind, Except.bind, pure,
      Except.pure]
  · rcases w with s | q | l | dd
    · simp [getSub, hgi] at hsub
    · simp [getSub, hgi] at hsub
    · simp [getSub, hgi] at hsub
    · simp only [getSub, hgi, Option.some.injEq] at hsub
      subst hsub
      simp [result, hm, hv, truthy, hil, containsKey, hgi, setIndex, getIndex,
        bind, Except.bind, pure, Except.pure]

/-- Splitting a successful `getSub`: either the key is absent and the
sub-dict is the fresh `{}`, or a dict sits at the key. -/
theorem getSub_cases (d : List (Key × PyVal)) (k : Key)
    (sub : List (Key × PyVal)) (h : getSub d k = some sub) :
    (getKey d k = none ∧ sub = []) ∨ getKey d k = some (.dict sub) := by
  rcases hk : getKey d k with _ | w
  · rw [getSub, hk] at h
    simp only [Option.some.injEq] at h
    subst h
    exact Or.inl ⟨rfl, rfl⟩
  · rcases w with s | q | l | dd
    · rw [getSub, hk] at h; simp at h
    · rw [getSub, hk] at h; simp at h
    · rw [getSub, hk] at h; simp at h
    · rw [getSub, hk] at h
      simp only [Option.some.injEq] at h
      subst h
      exact Or.inr rfl

/-- Observer and illuminant given, no cat: store under
`res[model][observer][illuminant]`. -/
theorem result_obs_none_case (res td od : List (Key × PyVal))
    (model : String) (value v' : PyVal) (os il : String) (ns : Bool)
    (hm : getKey res (.str model) = some (.dict td))
    (hv : storedValue (.dict td) value = .ok v')
    (hos : os ≠ "")
    (hsub : getSub td (.str os) = some od) :
    result res model value (.str il) (.str os) none false ns =
      .ok (setKey res (.str model) (.dict (setKey td (.str os)
        (.dict (setKey od (.str il) v'))))) := by
  rcases getSub_cases td (.str os) od hsub with ⟨hgo, rfl⟩ | hgo
  · have hgi : getKey ([] : List (Key × PyVal)) (.str il) = none := rfl
    simp [result, hm, hv, truthy, hos, containsKey, hgo, hgi, setIndex,
      getIndex, getKey_setKey_self, setKey_setKey_same, bind, Except.bind,
      pure, Except.pure]
  · rcases hgi : getKey od (.str il) with _ | w'
    · simp [result, hm, hv, truthy, hos, containsKey, hgo, hgi, setIndex,
        getIndex, getKey_setKey_self, setKey_setKey_same, bind, Except.bind,
        pure, Except.pure]
    · simp [result, hm, hv, truthy, hos, containsKey, hgo, hgi, setIndex,
        getIndex, getKey_setKey_self, setKey_setKey_same, bind, Except.bind,
        pure, Except.pure]

/-- Observer and illuminant given, with a cat: store under
`res[model][observer][illuminant][cat]`. -/
theorem result_obs_cat_case (res td od idd : List (Key × PyVal))
    (model : String) (value v' : PyVal) (os il c : String) (ns : Bool)
    (hm : getKey res (.str model) = some (.dict td))
    (hv : storedValue (.dict td) value = .ok v')
    (hos : os ≠ "")
    (hsubObs : getSub td (.str os) = some od)
    (hsubIll : getSub od (.str il) = some idd) :
    result res model value (.str il) (.str os) (some c) false ns =
      .ok (setKey res (.str model) (.dict (setKey td (.str os)
        (.dict (setKey od (.str il)
          (.dict (setKey idd (.str c) v'))))))) := by
  rcases getSub_cases td (.str os) od hsubObs with ⟨hgo, rfl⟩ | hgo
  · rcases getSub_cases [] (.str il) idd hsubIll with ⟨hgi, rfl⟩ | hgi
    · simp [result, hm, hv, truthy, hos, containsKey, hgo, hgi, setIndex,
        getIndex, getKey_setKey_self, setKey_setKey_same, bind, Except.bind,
        pure, Except.pure]
    · simp [getKey] at hgi
  · rcases getSub_cases od (.str il) idd hsubIll with ⟨hgi, rfl⟩ | hgi
    · simp [result, hm, hv, truthy, hos, containsKey, hgo, hgi, setIndex,
        getIndex, getKey_setKey_self, setKey_setKey_same, bind, Except.bind,
        pure, Except.pure]
    · simp [result, hm, hv, truthy, hos, containsKey, hgo, hgi, setIndex,
        getIndex, getKey_setKey_self, setKey_setKey_same, bind, Except.bind,
        pure, Except.pure]

/-- When the template's "codes" entry is a list of strings, the stored
value is the dictionary zipping those codes with the value's components. -/
theorem storedValue_codes (td : List (Key × PyVal)) (value : PyVal)
    (codeStrs : List String)
    (hc : getKey td (.str "codes") = some (.list (codeStrs.map PyVal.str))) :
    storedValue (.dict td) value =
      .ok (.dict (dictOfPairs
        ((codeStrs.map Key.str).zip (components value)))) := by
  simp [storedValue, containsKey, hc, getIndex, zipPairs_strs, bind,
    Except.bind, pure, Except.pure]

/-- C3 counterexample: the claim says every call to `result` stores the
value at some nesting depth, but a call whose model key is absent from the
result dictionary raises `KeyError` and stores nothing (here: the
"macadam" key on an empty dictionary). -/
theorem result_call_raises_instead_of_storing :
    result [] "macadam" (.num 2) (.str "D65") Key.fls none false false =
      .error "KeyError" := rfl

/-- C3 amended: every call to `result(model, value, illuminant, observer,
cat)` whose model key is already present in `res` (with its dict template,
and dict-or-absent intermediate nodes where a deeper level is indexed)
stores the (possibly codes-repackaged) value at the nesting depth
determined by which context parameters are supplied:
`res[model][observer][illuminant][cat]` when an observer is given and cat
is not None; `res[model][observer][illuminant]` when an observer is given
and cat is None; `res[model][illuminant][cat]` or `res[model][illuminant]`
analogously when only an illuminant is given; `res[model]["None"]` when
neither is given; and when the model's template has a "codes" list, the
stored value is a dictionary pairing those codes with the components of
value. -/
theorem result_stores_at_documented_depth (res td : List (Key × PyVal))
    (model : String) (value v' : PyVal) (os il c : String) (ns : Bool)
    (hm : getKey res (.str model) = some (.dict td))
    (hv : storedValue (.dict td) value = .ok v')
    (hos : os ≠ "") (hil : il ≠ "") :
    (∀ od idd, getSub td (.str os) = some od →
      getSub od (.str il) = some idd →
      result res model value (.str il) (.str os) (some c) false ns =
        .ok (setKey res (.str model) (.dict (setKey td (.str os)
          (.dict (setKey od (.str il)
            (.dict (setKey idd (.str c) v')))))))) ∧
    (∀ od, getSub td (.str os) = some od →
      result res model value (.str il) (.str os) none false ns =
        .ok (setKey res (.str model) (.dict (setKey td (.str os)
          (.dict (setKey od (.str il) v')))))) ∧
    (∀ idd, getSub td (.str il) = some idd →
      result res model value (.str il) Key.fls (some c) false ns =
        .ok (setKey res (.str model) (.dict (setKey td (.str il)
          (.dict (setKey idd (.str c) v')))))) ∧
    (result res model value (.str il) Key.fls none false ns =
      .ok (setKey res (.str model) (.dict (setKey td (.str il) v')))) ∧
    (∀ cat, result res model value Key.fls Key.fls cat false ns =
      .ok (setKey res (.str model) (.dict (setKey td (.str "None") v')))) ∧
    (∀ codeStrs : List String,
      getKey td (.str "codes") = some (.list (codeStrs.map PyVal.str)) →
      v' = .dict (dictOfPairs
        ((codeStrs.map Key.str).zip (components value)))) := by
  refine ⟨?_, ?_, ?_, ?_, ?_, ?_⟩
  · intro od idd h1 h2
    exact result_obs_cat_case res td od idd model value v' os il c ns hm hv
      hos h1 h2
  · intro od h1
    exact result_obs_none_case res td od model value v' os il ns hm hv hos h1
  · intro idd h1
    exact result_ill_cat_case res td idd model value v' il c ns hm hv hil h1
  · exact result_ill_none_case res td model value v' il ns hm hv hil
  · intro cat
    exact result_neither_case res td model value v' cat ns hm hv
  · intro codeStrs hc
    have := storedValue_codes td value codeStrs hc
    rw [hv] at this
    exact (Except.ok.injEq _ _).mp this

/-- Witness for C3's amended theorem: storing codes-repackaged CIEXYZ
components under a fresh observer/illuminant/cat path. -/
theorem result_stores_at_documented_depth_witness :
    result [(Key.str "ciexyz", PyVal.dict [(Key.str "codes",
        PyVal.list [PyVal.str "X", PyVal.str "Y", PyVal.str "Z"])])]
      "ciexyz" (PyVal.list [PyVal.num 1, PyVal.num 2, PyVal.num 3])
      (Key.str "D65") (Key.str "CIE 1931 2 Degree Standard Observer")
      (some "CAT02") false false =
      .ok (setKey [(Key.str "ciexyz", PyVal.dict [(Key.str "codes",
          PyVal.list [PyVal.str "X", PyVal.str "Y", PyVal.str "Z"])])]
        (.str "ciexyz") (.dict (setKey [(Key.str "codes",
            PyVal.list [PyVal.str "X", PyVal.str "Y", PyVal.str "Z"])]
          (.str "CIE 1931 2 Degree Standard Observer")
          (.dict (setKey [] (.str "D65")
            (.dict (setKey [] (.str "CAT02")
              (PyVal.dict [(Key.str "X", PyVal.num 1),
                (Key.str "Y", PyVal.num 2),
                (Key.str "Z", PyVal.num 3)])))))))) :=
  (result_stores_at_documented_depth
      [(Key.str "ciexyz", PyVal.dict [(Key.str "codes",
        PyVal.list [PyVal.str "X", PyVal.str "Y", PyVal.str "Z"])])]
      [(Key.str "codes",
        PyVal.list [PyVal.str "X", PyVal.str "Y", PyVal.str "Z"])]
      "ciexyz" (PyVal.list [PyVal.num 1, PyVal.num 2, PyVal.num 3])
      (PyVal.dict [(Key.str "X", PyVal.num 1), (Key.str "Y", PyVal.num 2),
        (Key.str "Z", PyVal.num 3)])
      "CIE 1931 2 Degree Standard Observer" "D65" "CAT02" false
      rfl rfl (by decide) (by decide)).1 [] [] rfl rfl

/-- Python runtime values reaching `json.dumps`: the natively
serializable kinds (int, float, str, list, dict) plus the NumPy scalar and
array kinds that `NumpyEncoder` handles. -/
inductive NpVal where
  | pint : ℤ → NpVal
  | pfloat : ℚ → NpVal
  | pstr : String → NpVal
  | plist : List NpVal → NpVal
  | pdict : List (String × NpVal) → NpVal
  | npint : ℤ → NpVal
  | npfloat : ℚ → NpVal
  | nparray : List NpVal → NpVal

/-- JSON documents (as trees; rendering details such as the
`separators=(",", ":")` option change only the printed text). -/
inductive Json where
  | num : ℚ → Json
  | str : String → Json
  | arr : List Json → Json
  | obj : List (String × Json) → Json

/-- Whether `json.dumps` serializes the value without consulting the
encoder's `default` hook. -/
def isNative : NpVal → Bool
  | .pint _ => true
  | .pfloat _ => true
  | .pstr _ => true
  | .plist _ => true
  | .pdict _ => true
  | .npint _ => false
  | .npfloat _ => false
  | .nparray _ => false

/-- `NumpyEncoder.default` (lines 2736-2747): `np.integer → int(o)`,
`np.floating → float(o)`, `np.ndarray → o.tolist()` (whose recursive
scalar conversion is equivalently performed by the encoder on the later
pass), anything else defers to `json.JSONEncoder.default`, which raises
`TypeError`. -/
def NumpyEncoder_default : NpVal → Except String NpVal
  | .npint n => .ok (.pint n)
  | .npfloat q => .ok (.pfloat q)
  | .nparray l => .ok (.plist l)
  | _ => .error "TypeError"

mutual

/-- `json.dumps(res, cls=NumpyEncoder, ...)` as a document tree: native
values serialize structurally, NumPy values by what `NumpyEncoder.default`
returns for them. -/
def dumps : NpVal → Except String Json
  | .pint n => .ok (.num n)
  | .pfloat q => .ok (.num q)
  | .pstr s => .ok (.str s)
  | .plist l => do
    let js ← dumpsList l
    pure (.arr js)
  | .pdict d => do
    let js ← dumpsDict d
    pure (.obj js)
  | .npint n => .ok (.num n)
  | .npfloat q => .ok (.num q)
  | .nparray l => do
    let js ← dumpsList l
    pure (.arr js)

def dumpsList : List NpVal → Except String (List Json)
  | [] => .ok []
  | v :: vs => do
    let j ← dumps v
    let js ← dumpsList vs
    pure (j :: js)

def dumpsDict : List (String × NpVal) → Except String (List (String × Json))
  | [] => .ok []
  | p :: ps => do
    let j ← dumps p.2
    let js ← dumpsDict ps
    pure ((p.1, j) :: js)

end

/-- The success-path tail of `__main__` (lines 4310-4312): `dumped =
json.dumps(res, cls=NumpyEncoder, separators=(",", ":"))` followed by
`print(dumped)` — the only write to standard output on the success path
(`print_help` runs only in the argparse error path).  The returned list is
the sequence of documents written to stdout. -/
def mainStdout (res : NpVal) : Except String (List Json) := do
  let dumped ← dumps res
  pure [dumped]

/-- C8: a successful run writes exactly one JSON document to standard
output, obtained by serializing the assembled result dictionary with
NumPy integers converted to Python int, NumPy floats to Python float and
NumPy arrays to lists; serializing a NumPy value is serializing what the
encoder's `default` hook converts it to. -/
theorem main_emits_single_json :
    (∀ (res : NpVal) (docs : List Json), mainStdout res = .ok docs →
      ∃ doc, docs = [doc] ∧ dumps res = .ok doc) ∧
    (∀ n : ℤ, NumpyEncoder_default (.npint n) = .ok (.pint n)) ∧
    (∀ q : ℚ, NumpyEncoder_default (.npfloat q) = .ok (.pfloat q)) ∧
    (∀ l : List NpVal, NumpyEncoder_default (.nparray l) = .ok (.plist l)) ∧
    (∀ v : NpVal, isNative v = false →
      dumps v = (NumpyEncoder_default v).bind dumps) := by
  refine ⟨?_, fun _ => rfl, fun _ => rfl, fun _ => rfl, ?_⟩
  · intro res docs h
    rcases hd : dumps res with e | doc
    · rw [mainStdout, hd] at h
      exact absurd h (by simp [bind, Except.bind])
    · rw [mainStdout, hd] at h
      refine ⟨doc, ?_, rfl⟩
      simpa [bind, Except.bind, pure, Except.pure] using h.symm
  · intro v hv
    cases v with
    | pint n => simp [isNative] at hv
    | pfloat q => simp [isNative] at hv
    | pstr s => simp [isNative] at hv
    | plist l => simp [isNative] at hv
    | pdict d => simp [isNative] at hv
    | npint n => rfl
    | npfloat q => rfl
    | nparray l => rfl

/-- Witness for C8: one document out of a small result dictionary holding
a NumPy integer. -/
theorem main_emits_single_json_witness :
    ∃ doc, [Json.obj [("cct", Json.num 6504)]] = [doc] ∧
      dumps (.pdict [("cct", .npint 6504)]) = .ok doc :=
  main_emits_single_json.1 (.pdict [("cct", .npint 6504)])
    [Json.obj [("cct", Json.num 6504)]] rfl

/-- An argument namespace with no value supplied at all. -/
def emptyArgs : Args :=
  ⟨none, none, none, none, none, none, none, none, none, none, none, none,
   none, none, none, none, none, none, none, none, none, none, none⟩

/-- Witness for C2: with no complete value set supplied, parsing exits
with status 2. -/
theorem determine_color_model_spec_witness :
    parse_arguments_model emptyArgs = .error 2 :=
  (determine_color_model_spec emptyArgs).2.2 rfl

/-- Witness for C1's amended theorem: a CIELAB run with the default
transform list stores, for every reachable (observer, illuminant) pair,
one result set tagged with no transform. -/
theorem mainFanout_spec_witness :
    ("CIE 1931 2 Degree Standard Observer",
      "ISO 7589 Sensitometric Daylight", (none : Option String)) ∈
      mainFanout (fun _ => true) (fun _ _ => true) "CIELAB"
        CHROMATIC_ADAPTATION_TRANSFORMS "ISO_7589" :=
  (mainFanout_spec (fun _ => true) (fun _ _ => true) "CIELAB"
      CHROMATIC_ADAPTATION_TRANSFORMS "ISO_7589"
      "CIE 1931 2 Degree Standard Observer"
      "ISO 7589 Sensitometric Daylight" none).mpr
    ⟨by decide, by decide, by decide, rfl, rfl⟩

end ColorConverter
